import Mathlib

/-!
Shallow embedding of the credit-card fraud-detection repository
(hybrid risk scoring engine and transaction credit-reservation lifecycle).

Scoring side (src/hybrid_model_manager.py):
  the "Original Model" is the spec's Global scorer and the "Sri Lanka Model"
  is the spec's Regional scorer.  A scorer is embedded as `Option ℚ`:
  `none` models a missing/unloadable model artifact (the source then falls
  back to `get_fallback_prediction`), `some p` models a loaded model whose
  `predict_proba` yields probability `p` for the transaction at hand.

Numeric conventions: Python floats are embedded as ℚ; every decimal
constant of the source is written as an explicit fraction (0.3 = 3/10,
40.7618 = 407618/10000, ...).  The source computes
`geo_distance = sqrt(dlat^2 + dlon^2)` and only ever compares it against
the constant 0.1; since both sides are nonnegative, `sqrt d < 0.1` is
equivalent to `d < 1/100`, so the embedding carries the squared distance
and compares it with `1/100`.
-/

/-- Risk tiers; the source represents them as the strings
`LOW_RISK` / `MEDIUM_RISK` / `HIGH_RISK`. -/
inductive RiskLevel where
  | LOW_RISK
  | MEDIUM_RISK
  | HIGH_RISK
deriving DecidableEq

/-- Embeds `HybridModelManager.is_in_sri_lanka` (src/hybrid_model_manager.py):
bounding-box membership test, 5.5 ≤ lat ≤ 10.0 ∧ 79.0 ≤ lon ≤ 82.0. -/
def is_in_sri_lanka (lat lon : ℚ) : Bool :=
  decide (11/2 ≤ lat) && decide (lat ≤ 10) && decide (79 ≤ lon) && decide (lon ≤ 82)

/-- Squared Euclidean degree distance; the source stores
`np.sqrt` of this quantity and compares it with 0.1. -/
def geo_distance_sq (user_lat user_lon merch_lat merch_lon : ℚ) : ℚ :=
  (user_lat - merch_lat)^2 + (user_lon - merch_lon)^2

/-- Embeds `HybridModelManager.choose_best_prediction`
(src/hybrid_model_manager.py lines 98-137).  `user_lat? / user_lon?` embed
`user_data.get('lat', 40.7618)` / `user_data.get('lon', -73.9708)`.
The comparison `geo_distance < 0.1` of the source is carried as
`geo_distance_sq < 1/100` (see header comment). -/
def choose_best_prediction (original_prob sri_lanka_prob : ℚ)
    (user_lat? user_lon? : Option ℚ) (merch_lat merch_lon : ℚ) : ℚ :=
  let user_lat := user_lat?.getD (407618/10000)
  let user_lon := user_lon?.getD (-739708/10000)
  let is_sri_lanka_user := is_in_sri_lanka user_lat user_lon
  let is_sri_lanka_merchant := is_in_sri_lanka merch_lat merch_lon
  let is_sri_lanka_transaction := is_sri_lanka_user || is_sri_lanka_merchant
  let is_local_sri_lanka :=
    is_sri_lanka_transaction &&
      decide (geo_distance_sq user_lat user_lon merch_lat merch_lon < 1/100)
  if is_local_sri_lanka then
    if |original_prob - sri_lanka_prob| > 3/10 then
      sri_lanka_prob
    else
      original_prob * (3/10) + sri_lanka_prob * (7/10)
  else if is_sri_lanka_transaction then
    original_prob * (1/2) + sri_lanka_prob * (1/2)
  else
    original_prob

/-- Embeds `HybridModelManager.get_fallback_prediction`
(src/hybrid_model_manager.py lines 202-214): rule-based fallback on the
amount, returning (probability, risk label). -/
def get_fallback_prediction (amount : ℚ) : ℚ × RiskLevel :=
  if amount > 2000 then (85/100, .HIGH_RISK)
  else if amount > 1000 then (65/100, .MEDIUM_RISK)
  else if amount < 10 then (80/100, .HIGH_RISK)
  else (15/100, .LOW_RISK)

/-- Embeds `HybridModelManager.predict_with_original`
(src/hybrid_model_manager.py lines 150-174): if the model is missing
(`none`), return the fallback probability for the amount; otherwise the
model's probability.  (A per-call inference exception also lands in the
fallback branch of the source; the embedding's `some p` covers exactly the
calls that produce a probability.) -/
def predict_with_original (model : Option ℚ) (amount : ℚ) : ℚ :=
  match model with
  | none => (get_fallback_prediction amount).1
  | some p => p

/-- Embeds `HybridModelManager.predict_with_sri_lanka`
(src/hybrid_model_manager.py lines 176-200): same shape as
`predict_with_original`. -/
def predict_with_sri_lanka (model : Option ℚ) (amount : ℚ) : ℚ :=
  match model with
  | none => (get_fallback_prediction amount).1
  | some p => p

/-- Risk-tier mapping inside `HybridModelManager.hybrid_predict`
(src/hybrid_model_manager.py lines 87-93): `< 0.1 → LOW`, `< 0.3 → MEDIUM`,
otherwise `HIGH`. -/
def hybrid_risk_level (p : ℚ) : RiskLevel :=
  if p < 1/10 then .LOW_RISK
  else if p < 3/10 then .MEDIUM_RISK
  else .HIGH_RISK

/-- Embeds `HybridModelManager.hybrid_predict` (src/hybrid_model_manager.py
lines 72-96): score with both models (each absent model degraded to the
rule fallback), blend with `choose_best_prediction`, and attach the tier. -/
def hybrid_predict (original_model sri_lanka_model : Option ℚ) (amount : ℚ)
    (user_lat? user_lon? : Option ℚ) (merch_lat merch_lon : ℚ) : ℚ × RiskLevel :=
  let original_prob := predict_with_original original_model amount
  let sri_lanka_prob := predict_with_sri_lanka sri_lanka_model amount
  let final_prob :=
    choose_best_prediction original_prob sri_lanka_prob user_lat? user_lon? merch_lat merch_lon
  (final_prob, hybrid_risk_level final_prob)

/-- Risk-tier mapping of `detect_fraud_proper`
(src/pages/4_💳_Make_Transaction.py lines 277-283), the classification that
is attached to a transaction when it is submitted through the transaction
form: `> 0.7 → HIGH`, `> 0.3 → MEDIUM`, otherwise `LOW`. -/
def risk_level_submission (p : ℚ) : RiskLevel :=
  if p > 7/10 then .HIGH_RISK
  else if p > 3/10 then .MEDIUM_RISK
  else .LOW_RISK

/-- Modelled from the spec: the piecewise reference contract for the
rule fallback (§4.5): `amount > 2000 → 0.85`; `1000 < amount ≤ 2000 → 0.65`;
`amount < 10 → 0.80`; otherwise `0.15`.  Used only to compare against
`get_fallback_prediction`. -/
def rule_fallback_reference (amount : ℚ) : ℚ :=
  if amount > 2000 then 85/100
  else if 1000 < amount ∧ amount ≤ 2000 then 65/100
  else if amount < 10 then 80/100
  else 15/100

/-!
Feature preprocessing (src/utils/helpers.py, `preprocess_transaction`):
builds the fixed-order 28-column feature row.  Clock-dependent inputs
(`datetime.now()` / `time.mktime`) are passed explicitly as a `Clock`
record; `transaction_data.get(...)` defaults are carried as `Option`
fields of `TxInput`.  Python's `int(str(card_number)[-8:])` keeps the
last 8 decimal digits of a numeric card number, i.e. `card_number % 10^8`;
`int(x)` on the population estimate truncates toward zero.
-/

/-- Wall-clock context of a preprocessing call (the source reads
`datetime.now()`): hour of day, weekday (Monday = 0), month, unix time. -/
structure Clock where
  hour : Nat
  weekday : Nat
  month : Nat
  unix_time : Nat
deriving DecidableEq

/-- The fields of the `transaction_data` dict that
`preprocess_transaction` reads; absent keys are `none`. -/
structure TxInput where
  card_number : Option Nat
  gender : Option String
  amount : ℚ
  category : Option String
deriving DecidableEq

/-- Embeds `get_city_population` (src/utils/helpers.py lines 42-58): coarse
population estimate from the user's coordinates. -/
def get_city_population (lat lon : ℚ) : Int :=
  if |lat - 407128/10000| < 5 ∧ |lon - (-740060/10000)| < 5 then 8419000
  else if |lat - 340522/10000| < 5 ∧ |lon - (-1182437/10000)| < 5 then 3980000
  else if |lat - 418781/10000| < 5 ∧ |lon - (-876298/10000)| < 5 then 2716000
  else
    -- int(1000000 * (1 - abs(lat)/90)) truncates toward zero
    let est : ℚ := 1000000 * (1 - |lat| / 90)
    max 50000 (if 0 ≤ est then ⌊est⌋ else -⌊-est⌋)

/-- Embeds `scale_amount` (src/utils/helpers.py lines 60-65). -/
def scale_amount (amount : ℚ) : ℚ :=
  (amount - 70) / 200

/-- The closed merchant-category list of `preprocess_transaction`. -/
def all_categories : List String :=
  ["entertainment", "food_dining", "gas_transport", "grocery_net", "grocery_pos",
   "health_fitness", "home", "kids_pets", "misc_net", "misc_pos",
   "personal_care", "shopping_net", "shopping_pos", "travel"]

/-- The 28-column feature row produced by `preprocess_transaction`
(src/utils/helpers.py lines 67-109), in source column order. -/
structure FeatureRow where
  cc_num : Nat
  gender : Nat
  lat : ℚ
  long : ℚ
  city_pop : Int
  unix_time : Nat
  merch_lat : ℚ
  merch_long : ℚ
  hour : Nat
  day_of_week : Nat
  is_weekend : Nat
  month : Nat
  cat_entertainment : Nat
  cat_food_dining : Nat
  cat_gas_transport : Nat
  cat_grocery_net : Nat
  cat_grocery_pos : Nat
  cat_health_fitness : Nat
  cat_home : Nat
  cat_kids_pets : Nat
  cat_misc_net : Nat
  cat_misc_pos : Nat
  cat_personal_care : Nat
  cat_shopping_net : Nat
  cat_shopping_pos : Nat
  cat_travel : Nat
  amt_scaled : ℚ
  high_risk_hour : Nat
deriving DecidableEq

/-- One-hot encoding of a category field against a fixed name:
`1 if transaction_data.get('category') == cat else 0`. -/
def one_hot (category? : Option String) (cat : String) : Nat :=
  if category? = some cat then 1 else 0

/-- Embeds `preprocess_transaction` (src/utils/helpers.py lines 67-109).  Total:
every input yields a feature row; there is no error path. -/
def preprocess_transaction (tx : TxInput) (clk : Clock)
    (user_lat user_lon merch_lat merch_lon : ℚ) : FeatureRow :=
  { cc_num := (tx.card_number.getD 0) % 100000000
    gender := if tx.gender.getD "M" = "M" then 1 else 0
    lat := user_lat
    long := user_lon
    city_pop := get_city_population user_lat user_lon
    unix_time := clk.unix_time
    merch_lat := merch_lat
    merch_long := merch_lon
    hour := clk.hour
    day_of_week := clk.weekday
    is_weekend := if clk.weekday ≥ 5 then 1 else 0
    month := clk.month
    cat_entertainment := one_hot tx.category "entertainment"
    cat_food_dining := one_hot tx.category "food_dining"
    cat_gas_transport := one_hot tx.category "gas_transport"
    cat_grocery_net := one_hot tx.category "grocery_net"
    cat_grocery_pos := one_hot tx.category "grocery_pos"
    cat_health_fitness := one_hot tx.category "health_fitness"
    cat_home := one_hot tx.category "home"
    cat_kids_pets := one_hot tx.category "kids_pets"
    cat_misc_net := one_hot tx.category "misc_net"
    cat_misc_pos := one_hot tx.category "misc_pos"
    cat_personal_care := one_hot tx.category "personal_care"
    cat_shopping_net := one_hot tx.category "shopping_net"
    cat_shopping_pos := one_hot tx.category "shopping_pos"
    cat_travel := one_hot tx.category "travel"
    amt_scaled := scale_amount tx.amount
    high_risk_hour := if clk.hour ∈ [2, 3, 4, 22, 23, 0] then 1 else 0 }

/-!
Credit ledger and transaction stores.

`data/users.json` is a dict keyed by user id; it is embedded as an
association list `List (String × User)` with first-match lookup/update
(a JSON dict has unique keys, and Python dicts preserve insertion order).
`data/pending_approvals.json` is a list of pending-approval records and
`data/transactions.json` a dict user → list of transaction records;
`data/fraud_alerts.json` a list of alerts.  Record dicts are embedded as
structures carrying the fields the lifecycle code reads or writes.
-/

/-- Embeds `users[uid]['credit_cards']['primary']` sub-record. -/
structure CreditCard where
  available_balance : ℚ
  current_balance : ℚ
deriving DecidableEq

/-- A `data/users.json` record: account-level ledger fields plus the
optional primary-card mirror (the source guards the card update with
`if 'credit_cards' in user and 'primary' in user['credit_cards']`). -/
structure User where
  total_available_credit : ℚ
  total_current_balance : ℚ
  total_credit_limit : ℚ
  primary_card : Option CreditCard
deriving DecidableEq

/-- The spec's Account invariant:
`available_credit + current_balance == credit_limit`. -/
def ledger_invariant (u : User) : Prop :=
  u.total_available_credit + u.total_current_balance = u.total_credit_limit

/-- The per-user mutation of `reserve_credit`
(src/pages/4_💳_Make_Transaction.py lines 308-346), applied once the
availability check has passed: `available -= amount`,
`current_balance += amount`, mirrored on the primary card. -/
def reserve_user (amount : ℚ) (u : User) : User :=
  { u with
    total_available_credit := u.total_available_credit - amount
    total_current_balance := u.total_current_balance + amount
    primary_card := u.primary_card.map fun c =>
      { available_balance := c.available_balance - amount
        current_balance := c.current_balance + amount } }

/-- The per-user refund performed by `reject_transaction` and
`flag_transaction_as_fraud` (src/pages/7_🛡️_Admin_Dashboard.py):
`available += amount`, `current_balance = max(0, current_balance - amount)`,
mirrored on the primary card. -/
def refund_user (amount : ℚ) (u : User) : User :=
  { u with
    total_available_credit := u.total_available_credit + amount
    total_current_balance := max 0 (u.total_current_balance - amount)
    primary_card := u.primary_card.map fun c =>
      { available_balance := c.available_balance + amount
        current_balance := max 0 (c.current_balance - amount) } }

/-- Dict access `users.get(uid)` on the association list. -/
def lookup_user (uid : String) : List (String × User) → Option User
  | [] => none
  | (k, u) :: rest => if k = uid then some u else lookup_user uid rest

/-- Dict update `users[uid] = f(users[uid])` on the association list. -/
def update_user (uid : String) (f : User → User) :
    List (String × User) → List (String × User)
  | [] => []
  | (k, u) :: rest =>
      if k = uid then (k, f u) :: rest else (k, u) :: update_user uid f rest

/-- A `data/pending_approvals.json` record as written by
`add_pending_approval` (src/utils/helpers.py lines 111-139); `resolved_at`
is only added by `update_transaction_status`, hence optional. -/
structure PendingRec where
  transaction_id : String
  user_id : String
  amount : ℚ
  fraud_probability : ℚ
  risk_level : RiskLevel
  timestamp : String
  status : String
  admin_action : Option String
  resolved_at : Option String
deriving DecidableEq

/-- A `data/transactions.json` history record (per-user list element);
`transaction_id` is read with `.get`, hence optional, and `admin_review`
is only added by `update_transaction_status`. -/
structure TxRec where
  transaction_id : Option String
  amount : ℚ
  category : String
  merchant_address : String
  status : String
  admin_review : Option String
  submitted_at : String
deriving DecidableEq

/-- A `data/fraud_alerts.json` record (shape of
`create_fraud_alert`, src/utils/helpers.py lines 182-211). -/
structure AlertRec where
  alert_id : String
  transaction_id : Option String
  user_id : String
  fraud_probability : ℚ
  amount : ℚ
  status : String
  priority : String
deriving DecidableEq

/-- The persisted collections the lifecycle reads and writes. -/
structure Stores where
  users : List (String × User)
  pending : List PendingRec
  transactions : List (String × List TxRec)
  fraud_alerts : List AlertRec
deriving DecidableEq

/-- First loop of `update_transaction_status`
(src/utils/helpers.py lines 150-155): update the first pending record with
the given transaction id (status, admin note, resolution time) and stop;
records after the first match and all non-matching records are untouched. -/
def update_first_pending (txid status : String) (note : Option String)
    (t : String) : List PendingRec → List PendingRec
  | [] => []
  | r :: rs =>
      if r.transaction_id = txid then
        { r with status := status, admin_action := note, resolved_at := some t } :: rs
      else
        r :: update_first_pending txid status note t rs

/-- Inner loop of the history update in `update_transaction_status`
(src/utils/helpers.py lines 169-175): update the first record of one
user's list whose `transaction_id` equals the id; the Bool records whether
a match was found (the source's `user_id` sentinel). -/
def update_first_tx (txid status : String) (note : Option String) :
    List TxRec → Bool × List TxRec
  | [] => (false, [])
  | r :: rs =>
      if r.transaction_id = some txid then
        (true, { r with status := status, admin_review := note } :: rs)
      else
        let p := update_first_tx txid status note rs
        (p.1, r :: p.2)

/-- Outer loop of the history update in `update_transaction_status`:
scan users in order; the first user whose list contains the id gets the
inner update, later users are not visited. -/
def update_first_user_tx (txid status : String) (note : Option String) :
    List (String × List TxRec) → List (String × List TxRec)
  | [] => []
  | (u, txs) :: rest =>
      let p := update_first_tx txid status note txs
      if p.1 then (u, p.2) :: rest
      else (u, txs) :: update_first_user_tx txid status note rest

/-- Embeds `update_transaction_status` (src/utils/helpers.py lines 141-180):
rewrites the pending-approvals file and the transactions file, updating at
most the first matching record in each; `data/users.json` and
`data/fraud_alerts.json` are not touched. -/
def update_transaction_status (txid status : String) (note : Option String)
    (t : String) (st : Stores) : Stores :=
  { st with
    pending := update_first_pending txid status note t st.pending
    transactions := update_first_user_tx txid status note st.transactions }

/-- Embeds `reserve_credit` (src/pages/4_💳_Make_Transaction.py lines 308-346):
fail (False) when the user is missing or the amount exceeds
`total_available_credit`; otherwise apply `reserve_user` and succeed. -/
def reserve_credit (uid : String) (amount : ℚ)
    (users : List (String × User)) : Bool × List (String × User) :=
  match lookup_user uid users with
  | none => (false, users)
  | some u =>
      if amount > u.total_available_credit then (false, users)
      else (true, update_user uid (reserve_user amount) users)

/-- Embeds `approve_transaction` (src/pages/7_🛡️_Admin_Dashboard.py lines 23-32):
finalization is purely a status update; the ledger is untouched. -/
def approve_transaction (txid : String) (t : String) (st : Stores) :
    Bool × Stores :=
  (true,
   update_transaction_status txid "approved"
     (some "Transaction approved by security team") t st)

/-- Embeds `reject_transaction` (src/pages/7_🛡️_Admin_Dashboard.py lines 34-69):
refund the user's reserved credit if the user exists, then update the
transaction status to rejected.  There is no check of the transaction's
current status, and the return value is unconditionally True. -/
def reject_transaction (txid uid : String) (amount : ℚ) (t : String)
    (st : Stores) : Bool × Stores :=
  let users' :=
    if (lookup_user uid st.users).isSome then
      update_user uid (refund_user amount) st.users
    else st.users
  (true,
   update_transaction_status txid "rejected"
     (some "Transaction rejected by security team - credit refunded") t
     { st with users := users' })

/-- Embeds `flag_transaction_as_fraud` (src/pages/7_🛡️_Admin_Dashboard.py lines
71-104): refund (as in reject), set status to fraud, then call
`create_fraud_alert`.  The dashboard passes three arguments to
`create_fraud_alert` but the helper (src/utils/helpers.py line 182) takes
two, so that call raises TypeError before any alert is appended; the
surrounding except swallows it and the function returns False — with the
refund and the status update already written to disk. -/
def flag_transaction_as_fraud (txid uid : String) (amount : ℚ) (t : String)
    (st : Stores) : Bool × Stores :=
  let users' :=
    if (lookup_user uid st.users).isSome then
      update_user uid (refund_user amount) st.users
    else st.users
  (false,
   update_transaction_status txid "fraud"
     (some "Flagged as fraudulent activity - credit refunded") t
     { st with users := users' })

/-- Outcome of the transaction-form submit handler. -/
inductive SubmitResult where
  | accepted
  | insufficientCredit
  | validationError
  | reserveFailed
deriving DecidableEq

/-- The submit handler of the transaction form
(src/pages/4_💳_Make_Transaction.py lines 543-654), with the scoring
result (`fraud_probability`, `risk_level` from `detect_fraud_proper`) and
the generated ids/timestamps passed in as parameters.  Order as in the
source: credit-limit check (amount above `total_available_credit`, with a
missing user read as 0 available, declines with no state change), then the
required-fields check, then `reserve_credit`, then `add_pending_approval`
and the append to the user's transaction history. -/
def submit_handler (uid : String) (amount : ℚ)
    (recipient_name merchant_address category : String)
    (fraud_probability : ℚ) (risk_level : RiskLevel)
    (txid t : String) (st : Stores) : SubmitResult × Stores :=
  let available :=
    ((lookup_user uid st.users).map User.total_available_credit).getD 0
  if amount > available then
    (.insufficientCredit, st)
  else if amount = 0 ∨ recipient_name = "" ∨ merchant_address = "" then
    (.validationError, st)
  else
    match reserve_credit uid amount st.users with
    | (false, users') => (.reserveFailed, { st with users := users' })
    | (true, users') =>
        let pendingRec : PendingRec :=
          { transaction_id := txid
            user_id := uid
            amount := amount
            fraud_probability := fraud_probability
            risk_level := risk_level
            timestamp := t
            status := "pending"
            admin_action := none
            resolved_at := none }
        let txRec : TxRec :=
          { transaction_id := some txid
            amount := amount
            category := category
            merchant_address := merchant_address
            status := "pending"
            admin_review := none
            submitted_at := t }
        let transactions' :=
          match st.transactions.lookup uid with
          | some _ =>
              st.transactions.map fun p =>
                if p.1 = uid then (p.1, p.2 ++ [txRec]) else p
          | none => st.transactions ++ [(uid, [txRec])]
        (.accepted,
         { st with
           users := users'
           pending := st.pending ++ [pendingRec]
           transactions := transactions' })

/-! Helper lemmas shared by the claim theorems. -/

/-- Looking a user up after a keyed update yields the updated record. -/
theorem lookup_update_user (uid : String) (f : User → User) :
    ∀ users, lookup_user uid (update_user uid f users)
      = (lookup_user uid users).map f
  | [] => rfl
  | (k, u) :: rest => by
      by_cases h : k = uid
      · simp [lookup_user, update_user, h]
      · simp [lookup_user, update_user, h, lookup_update_user uid f rest]

/-- Embeds `update_transaction_status` rewrites only the pending and history
collections; the users file is untouched. -/
theorem update_transaction_status_users (txid status : String)
    (note : Option String) (t : String) (st : Stores) :
    (update_transaction_status txid status note t st).users = st.users := rfl

/-- C1 (counterexample): the claim fails for Refund.  On the account
`limit = 100, available = 100, balance = 0` the invariant holds, yet the
refund of 50 that `reject_transaction` applies (the operation accepts any
amount) clamps the balance at 0 and leaves `available + balance = 150 ≠
100`. -/
theorem C1_ledger_invariant_counterexample :
    ledger_invariant
      { total_available_credit := 100, total_current_balance := 0,
        total_credit_limit := 100, primary_card := none } ∧
    ¬ ledger_invariant
      (refund_user 50
        { total_available_credit := 100, total_current_balance := 0,
          total_credit_limit := 100, primary_card := none }) := by
  constructor
  · norm_num [ledger_invariant]
  · norm_num [ledger_invariant, refund_user, max_def]

/-- C1 (amended): Reserve preserves `available + balance = limit` for
every amount, Finalize (Approve) performs no ledger mutation at all, and
Refund preserves the invariant provided the refunded amount does not
exceed the current balance (otherwise the `max(0, ·)` clamp breaks it). -/
theorem C1_ledger_invariant_amended :
    (∀ (amount : ℚ) (u : User), ledger_invariant u →
        ledger_invariant (reserve_user amount u)) ∧
    (∀ (txid t : String) (st : Stores),
        ((approve_transaction txid t st).2).users = st.users) ∧
    (∀ (amount : ℚ) (u : User), ledger_invariant u →
        amount ≤ u.total_current_balance →
        ledger_invariant (refund_user amount u)) := by
  refine ⟨?_, ?_, ?_⟩
  · intro amount u h
    simp only [ledger_invariant, reserve_user] at h ⊢
    linarith
  · intro txid t st
    rfl
  · intro amount u h hle
    simp only [ledger_invariant, refund_user] at h ⊢
    rw [max_eq_right (by linarith)]
    linarith

/-- C1 (witness): the amended theorem applied at a reservation of 500 on a
fresh 1000-limit account and a refund of 300 on an account with balance
500. -/
theorem C1_ledger_invariant_amended_witness :
    ledger_invariant
      (reserve_user 500
        { total_available_credit := 1000, total_current_balance := 0,
          total_credit_limit := 1000, primary_card := none }) ∧
    ledger_invariant
      (refund_user 300
        { total_available_credit := 500, total_current_balance := 500,
          total_credit_limit := 1000, primary_card := none }) :=
  ⟨C1_ledger_invariant_amended.1 500 _ (by norm_num [ledger_invariant]),
   C1_ledger_invariant_amended.2.2 300 _ (by norm_num [ledger_invariant])
     (by norm_num)⟩

/-- C2 (counterexample): `reject_transaction` does not gate on the
transaction's status.  Starting from a store whose pending record for TX1
is already resolved by a first Reject, a second Reject returns success
(True, not an InvalidState error) and refunds again: available credit
moves from 1000 after the first call to 1500 after the second. -/
theorem C2_double_refund_counterexample :
    (reject_transaction "TX1" "alice" 500 "t2"
        (reject_transaction "TX1" "alice" 500 "t1"
          { users :=
              [("alice",
                { total_available_credit := 500, total_current_balance := 500,
                  total_credit_limit := 1000, primary_card := none })]
            pending :=
              [{ transaction_id := "TX1", user_id := "alice", amount := 500,
                 fraud_probability := 1/2, risk_level := .MEDIUM_RISK,
                 timestamp := "t0", status := "pending",
                 admin_action := none, resolved_at := none }]
            transactions := []
            fraud_alerts := [] }).2).1 = true ∧
    (lookup_user "alice"
        (reject_transaction "TX1" "alice" 500 "t1"
          { users :=
              [("alice",
                { total_available_credit := 500, total_current_balance := 500,
                  total_credit_limit := 1000, primary_card := none })]
            pending :=
              [{ transaction_id := "TX1", user_id := "alice", amount := 500,
                 fraud_probability := 1/2, risk_level := .MEDIUM_RISK,
                 timestamp := "t0", status := "pending",
                 admin_action := none, resolved_at := none }]
            transactions := []
            fraud_alerts := [] }).2.users).map User.total_available_credit
      = some 1000 ∧
    (lookup_user "alice"
        (reject_transaction "TX1" "alice" 500 "t2"
          (reject_transaction "TX1" "alice" 500 "t1"
            { users :=
                [("alice",
                  { total_available_credit := 500, total_current_balance := 500,
                    total_credit_limit := 1000, primary_card := none })]
              pending :=
                [{ transaction_id := "TX1", user_id := "alice", amount := 500,
                   fraud_probability := 1/2, risk_level := .MEDIUM_RISK,
                   timestamp := "t0", status := "pending",
                   admin_action := none, resolved_at := none }]
              transactions := []
              fraud_alerts := [] }).2).2.users).map User.total_available_credit
      = some 1500 := by
  refine ⟨rfl, ?_, ?_⟩ <;>
    norm_num [reject_transaction, update_transaction_status,
      update_first_pending, update_first_user_tx, update_first_tx,
      lookup_user, update_user, refund_user, max_def]

/-- C2 (amended): neither `reject_transaction` nor
`flag_transaction_as_fraud` checks the transaction's current status: for
any store in which the user exists, calling the decision twice applies the
refund twice, ending with `available_credit = initial + 2·amount`;
`reject_transaction` reports success both times (and
`flag_transaction_as_fraud` reports False only because its fraud-alert
call raises a TypeError after the refund is written).  The only guard
against a double refund is that the dashboard lists only records whose
status is still `pending`. -/
theorem C2_double_refund_amended (st : Stores) (uid txid : String)
    (amount : ℚ) (t1 t2 : String) (u : User)
    (hu : lookup_user uid st.users = some u) :
    (reject_transaction txid uid amount t1 st).1 = true ∧
    (reject_transaction txid uid amount t2
        (reject_transaction txid uid amount t1 st).2).1 = true ∧
    (lookup_user uid
        (reject_transaction txid uid amount t2
          (reject_transaction txid uid amount t1 st).2).2.users).map
        User.total_available_credit
      = some (u.total_available_credit + amount + amount) ∧
    (lookup_user uid
        (flag_transaction_as_fraud txid uid amount t2
          (flag_transaction_as_fraud txid uid amount t1 st).2).2.users).map
        User.total_available_credit
      = some (u.total_available_credit + amount + amount) := by
  have hr1 : (reject_transaction txid uid amount t1 st).2.users
      = update_user uid (refund_user amount) st.users := by
    simp [reject_transaction, update_transaction_status, hu]
  have hl1 : lookup_user uid (reject_transaction txid uid amount t1 st).2.users
      = some (refund_user amount u) := by
    rw [hr1, lookup_update_user, hu]; rfl
  have hr2 : (reject_transaction txid uid amount t2
        (reject_transaction txid uid amount t1 st).2).2.users
      = update_user uid (refund_user amount)
          ((reject_transaction txid uid amount t1 st).2.users) := by
    set s1 := (reject_transaction txid uid amount t1 st).2 with hs1
    simp [reject_transaction, update_transaction_status, hl1, ← hs1]
  have hf1 : (flag_transaction_as_fraud txid uid amount t1 st).2.users
      = update_user uid (refund_user amount) st.users := by
    simp [flag_transaction_as_fraud, update_transaction_status, hu]
  have hfl1 : lookup_user uid
        (flag_transaction_as_fraud txid uid amount t1 st).2.users
      = some (refund_user amount u) := by
    rw [hf1, lookup_update_user, hu]; rfl
  have hf2 : (flag_transaction_as_fraud txid uid amount t2
        (flag_transaction_as_fraud txid uid amount t1 st).2).2.users
      = update_user uid (refund_user amount)
          ((flag_transaction_as_fraud txid uid amount t1 st).2.users) := by
    set s1 := (flag_transaction_as_fraud txid uid amount t1 st).2 with hs1
    simp [flag_transaction_as_fraud, update_transaction_status, hfl1, ← hs1]
  refine ⟨rfl, rfl, ?_, ?_⟩
  · rw [hr2, hr1, lookup_update_user, lookup_update_user, hu]
    simp [refund_user]
  · rw [hf2, hf1, lookup_update_user, lookup_update_user, hu]
    simp [refund_user]

/-- C2 (witness): the amended theorem at a concrete one-user store with a
500 refund: two rejects end with available credit 500 + 500 + 500. -/
theorem C2_double_refund_amended_witness :
    (reject_transaction "TX1" "alice" 500 "t2"
        (reject_transaction "TX1" "alice" 500 "t1"
          { users :=
              [("alice",
                { total_available_credit := 500, total_current_balance := 500,
                  total_credit_limit := 1000, primary_card := none })]
            pending := []
            transactions := []
            fraud_alerts := [] }).2).1 = true ∧
    (lookup_user "alice"
        (reject_transaction "TX1" "alice" 500 "t2"
          (reject_transaction "TX1" "alice" 500 "t1"
            { users :=
                [("alice",
                  { total_available_credit := 500, total_current_balance := 500,
                    total_credit_limit := 1000, primary_card := none })]
              pending := []
              transactions := []
              fraud_alerts := [] }).2).2.users).map User.total_available_credit
      = some (500 + 500 + 500) :=
  ⟨(C2_double_refund_amended _ "alice" "TX1" 500 "t1" "t2" _ (by rfl)).2.1,
   (C2_double_refund_amended _ "alice" "TX1" 500 "t1" "t2" _ (by rfl)).2.2.1⟩

/-- C3 (confirmed): when the requested amount exceeds the user's available
credit (a missing user reads as 0 available), the submit handler returns
the insufficient-credit decline and the state is returned untouched: no
pending-approval record, no history record, no ledger change. -/
theorem C3_insufficient_credit (st : Stores) (uid : String) (amount : ℚ)
    (recipient_name merchant_address category : String)
    (fraud_probability : ℚ) (risk_level : RiskLevel) (txid t : String)
    (h : amount >
      ((lookup_user uid st.users).map User.total_available_credit).getD 0) :
    submit_handler uid amount recipient_name merchant_address category
        fraud_probability risk_level txid t st = (.insufficientCredit, st) ∧
    (submit_handler uid amount recipient_name merchant_address category
        fraud_probability risk_level txid t st).2.pending = st.pending ∧
    (submit_handler uid amount recipient_name merchant_address category
        fraud_probability risk_level txid t st).2.transactions
      = st.transactions ∧
    (submit_handler uid amount recipient_name merchant_address category
        fraud_probability risk_level txid t st).2.users = st.users := by
  have hmain : submit_handler uid amount recipient_name merchant_address
      category fraud_probability risk_level txid t st
        = (.insufficientCredit, st) := by
    simp [submit_handler, h]
  exact ⟨hmain, by rw [hmain], by rw [hmain], by rw [hmain]⟩

/-- C3 (witness): Scenario D — amount 500 against available credit 400 is
declined with the state unchanged. -/
theorem C3_insufficient_credit_witness :
    submit_handler "alice" 500 "shop" "addr" "home" (1/10) .LOW_RISK "TX9" "t"
      { users :=
          [("alice",
            { total_available_credit := 400, total_current_balance := 600,
              total_credit_limit := 1000, primary_card := none })]
        pending := []
        transactions := []
        fraud_alerts := [] }
    = (.insufficientCredit,
       { users :=
           [("alice",
             { total_available_credit := 400, total_current_balance := 600,
               total_credit_limit := 1000, primary_card := none })]
         pending := []
         transactions := []
         fraud_alerts := [] }) :=
  (C3_insufficient_credit _ "alice" 500 "shop" "addr" "home" (1/10)
    .LOW_RISK "TX9" "t" (by norm_num [lookup_user])).1

/-- C4 (counterexample): the blender's local-pair test requires only that
at least one endpoint lie in the home region, not both.  With the user at
(5.5, 79.5) (inside the bounding box) and the merchant at (5.45, 79.5)
(outside, latitude below 5.5) at squared distance 0.0025 < 0.01, the
local branch fires: the blend of global 0.40 / regional 0.20 is
0.3·0.40 + 0.7·0.20 = 0.26, not the 0.5/0.5 mixed value 0.30 that the
claim's "exactly when both" characterization would dictate for this
one-home-endpoint pair. -/
theorem C4_local_pair_counterexample :
    is_in_sri_lanka (11/2) (795/10) = true ∧
    is_in_sri_lanka (545/100) (795/10) = false ∧
    geo_distance_sq (11/2) (795/10) (545/100) (795/10) < 1/100 ∧
    choose_best_prediction (2/5) (1/5) (some (11/2)) (some (795/10))
        (545/100) (795/10) = 13/50 ∧
    (13/50 : ℚ) ≠ (2/5) * (1/2) + (1/5) * (1/2) := by
  refine ⟨?_, ?_, ?_, ?_, ?_⟩
  · norm_num [is_in_sri_lanka]
  · norm_num [is_in_sri_lanka]
  · norm_num [geo_distance_sq]
  · norm_num [choose_best_prediction, is_in_sri_lanka, geo_distance_sq, abs]
  · norm_num

/-- C4 (amended): the blender treats a transaction as a local pair exactly
when at least one of userLoc and merchLoc is classified HomeRegion and the
Euclidean degree distance is below 0.1°; for every local pair it returns
the regional probability when |regional − global| > 0.3 and
0.7·regional + 0.3·global otherwise (so Scenario A — regional 0.05,
global 0.20 at distance 0.001° — blends to 0.095, tier LOW). -/
theorem C4_local_pair_amended :
    (∀ (original_prob sri_lanka_prob user_lat user_lon merch_lat merch_lon : ℚ),
       (is_in_sri_lanka user_lat user_lon || is_in_sri_lanka merch_lat merch_lon)
           = true →
       geo_distance_sq user_lat user_lon merch_lat merch_lon < 1/100 →
       choose_best_prediction original_prob sri_lanka_prob
           (some user_lat) (some user_lon) merch_lat merch_lon
         = if |original_prob - sri_lanka_prob| > 3/10 then sri_lanka_prob
           else original_prob * (3/10) + sri_lanka_prob * (7/10)) ∧
    hybrid_predict (some (1/5)) (some (1/20)) 25 (some 7) (some 80)
        7 (80 + 1/1000)
      = (19/200, RiskLevel.LOW_RISK) := by
  constructor
  · intro op sp ulat ulon mlat mlon h1 h2
    simp [choose_best_prediction, h1, h2]
    intro h
    linarith
  · norm_num [hybrid_predict, predict_with_original, predict_with_sri_lanka,
      choose_best_prediction, is_in_sri_lanka, geo_distance_sq,
      hybrid_risk_level, abs]

/-- C4 (witness): the amended local-pair blend rule at Scenario A's
inputs: both endpoints in the home box at distance 0.001°. -/
theorem C4_local_pair_amended_witness :
    choose_best_prediction (1/5) (1/20) (some 7) (some 80) 7 (80 + 1/1000)
      = if |(1/5 : ℚ) - 1/20| > 3/10 then 1/20
        else (1/5) * (3/10) + (1/20) * (7/10) :=
  C4_local_pair_amended.1 (1/5) (1/20) 7 80 7 (80 + 1/1000)
    (by norm_num [is_in_sri_lanka]) (by norm_num [geo_distance_sq])

/-- C5 (counterexample): with neither endpoint in the home region (user at
(40, −74), merchant at (25.2, 55.3)) and scorer outputs global 0.90,
regional 0.40, the blender returns the global probability 0.90 unmodified,
not the claimed 0.2·0.40 + 0.8·0.90 = 0.80. -/
theorem C5_foreign_blend_counterexample :
    choose_best_prediction (9/10) (2/5) (some 40) (some (-74))
        (252/10) (553/10) = 9/10 ∧
    (9/10 : ℚ) ≠ (2/5) * (2/10) + (9/10) * (8/10) := by
  constructor
  · norm_num [choose_best_prediction, is_in_sri_lanka, geo_distance_sq]
  · norm_num

/-- C5 (amended): for every pair of scorer probabilities and every pair of
locations of which neither is classified HomeRegion, the blender returns
the global (original-model) probability unmodified; in particular
regional = 0.40 and global = 0.90 yield 0.90, tier HIGH. -/
theorem C5_foreign_blend_amended :
    (∀ (original_prob sri_lanka_prob user_lat user_lon merch_lat merch_lon : ℚ),
       is_in_sri_lanka user_lat user_lon = false →
       is_in_sri_lanka merch_lat merch_lon = false →
       choose_best_prediction original_prob sri_lanka_prob
           (some user_lat) (some user_lon) merch_lat merch_lon
         = original_prob) ∧
    hybrid_predict (some (9/10)) (some (2/5)) 2800 (some 40) (some (-74))
        (252/10) (553/10)
      = (9/10, RiskLevel.HIGH_RISK) := by
  constructor
  · intro op sp ulat ulon mlat mlon h1 h2
    simp [choose_best_prediction, h1, h2]
  · norm_num [hybrid_predict, predict_with_original, predict_with_sri_lanka,
      choose_best_prediction, is_in_sri_lanka, geo_distance_sq,
      hybrid_risk_level]

/-- C5 (witness): the amended foreign-context rule at Scenario B's scorer
outputs and a New York → Dubai location pair. -/
theorem C5_foreign_blend_amended_witness :
    choose_best_prediction (9/10) (2/5) (some 40) (some (-74))
        (252/10) (553/10) = 9/10 :=
  C5_foreign_blend_amended.1 (9/10) (2/5) 40 (-74) (252/10) (553/10)
    (by norm_num [is_in_sri_lanka]) (by norm_num [is_in_sri_lanka])

/-- C6 (counterexample): with the original (global) scorer unavailable,
the regional scorer returning 0.20 and amount 50 on a local home-region
pair, the pipeline blends the substituted fallback 0.15 with 0.20 and
yields 0.3·0.15 + 0.7·0.20 = 0.185 — not the available scorer's 0.20
unmodified. -/
theorem C6_single_scorer_counterexample :
    (hybrid_predict none (some (1/5)) 50 (some 7) (some 80)
        7 (80 + 1/1000)).1 = 37/200 ∧
    (37/200 : ℚ) ≠ 1/5 := by
  constructor
  · norm_num [hybrid_predict, predict_with_original, predict_with_sri_lanka,
      get_fallback_prediction, choose_best_prediction, is_in_sri_lanka,
      geo_distance_sq, abs]
  · norm_num

/-- C6 (amended): whenever exactly one of the two scorers is unavailable,
the pipeline substitutes the rule fallback's probability for the amount in
the unavailable scorer's place and blends as usual; the result equals the
available scorer's probability only in the branches of the blender that
select that scorer alone. -/
theorem C6_single_scorer_amended :
    ∀ (p amount : ℚ) (user_lat? user_lon? : Option ℚ) (merch_lat merch_lon : ℚ),
      (hybrid_predict none (some p) amount user_lat? user_lon?
          merch_lat merch_lon).1
        = choose_best_prediction (get_fallback_prediction amount).1 p
            user_lat? user_lon? merch_lat merch_lon ∧
      (hybrid_predict (some p) none amount user_lat? user_lon?
          merch_lat merch_lon).1
        = choose_best_prediction p (get_fallback_prediction amount).1
            user_lat? user_lon? merch_lat merch_lon :=
  fun _ _ _ _ _ _ => ⟨rfl, rfl⟩

/-- The blender maps equal scorer outputs to that common value in every
branch (every blend weight pair sums to 1). -/
theorem choose_best_prediction_same (p : ℚ) (user_lat? user_lon? : Option ℚ)
    (merch_lat merch_lon : ℚ) :
    choose_best_prediction p p user_lat? user_lon? merch_lat merch_lon = p := by
  unfold choose_best_prediction
  split_ifs <;> ring_nf <;> simp_all

/-- C7 (confirmed): `get_fallback_prediction` agrees with the spec's
piecewise reference on every amount (0.85 above 2000, 0.65 on
(1000, 2000], 0.80 below 10, 0.15 otherwise), and with both scorers
unavailable the pipeline's output for amount 3 is probability 0.80, tier
HIGH, for every location context. -/
theorem C7_rule_fallback :
    (∀ amount : ℚ,
       (get_fallback_prediction amount).1 = rule_fallback_reference amount) ∧
    (∀ (user_lat? user_lon? : Option ℚ) (merch_lat merch_lon : ℚ),
       hybrid_predict none none 3 user_lat? user_lon? merch_lat merch_lon
         = (4/5, RiskLevel.HIGH_RISK)) := by
  constructor
  · intro a
    by_cases h1 : a > 2000
    · simp [get_fallback_prediction, rule_fallback_reference, h1]
    · by_cases h2 : a > 1000
      · have h3 : 1000 < a ∧ a ≤ 2000 := ⟨h2, by linarith [not_lt.mp h1]⟩
        simp [get_fallback_prediction, rule_fallback_reference, h1, h2, h3]
      · by_cases h4 : a < 10
        · simp [get_fallback_prediction, rule_fallback_reference, h1, h2, h4]
        · simp [get_fallback_prediction, rule_fallback_reference, h1, h2, h4]
  · intro ul uo ml mo
    have hf : (get_fallback_prediction 3).1 = 4/5 := by
      norm_num [get_fallback_prediction]
    simp only [hybrid_predict, predict_with_original, predict_with_sri_lanka]
    rw [choose_best_prediction_same, hf]
    norm_num [hybrid_risk_level]

/-- C8 (counterexample): the tier mapping applied at submission
(`detect_fraud_proper`) classifies probability 0.2 as LOW (its thresholds
are > 0.3 and > 0.7), while the claimed canonical mapping
(`hybrid_predict`'s) classifies 0.2 as MEDIUM. -/
theorem C8_risk_tier_counterexample :
    risk_level_submission (1/5) = RiskLevel.LOW_RISK ∧
    hybrid_risk_level (1/5) = RiskLevel.MEDIUM_RISK ∧
    RiskLevel.LOW_RISK ≠ RiskLevel.MEDIUM_RISK := by
  refine ⟨?_, ?_, by decide⟩
  · norm_num [risk_level_submission]
  · norm_num [hybrid_risk_level]

/-- C8 (amended): `hybrid_predict`'s classifier partitions [0,1] with the
canonical thresholds (< 0.1 LOW, 0.1 ≤ p < 0.3 MEDIUM, ≥ 0.3 HIGH), but
the mapping applied to the probability attached at submission uses
p > 0.7 → HIGH, 0.3 < p ≤ 0.7 → MEDIUM, p ≤ 0.3 → LOW; each is a total
function assigning exactly one tier. -/
theorem C8_risk_tier_amended (p : ℚ) (_hp0 : 0 ≤ p) (_hp1 : p ≤ 1) :
    (hybrid_risk_level p = RiskLevel.LOW_RISK ↔ p < 1/10) ∧
    (hybrid_risk_level p = RiskLevel.MEDIUM_RISK ↔ 1/10 ≤ p ∧ p < 3/10) ∧
    (hybrid_risk_level p = RiskLevel.HIGH_RISK ↔ 3/10 ≤ p) ∧
    (risk_level_submission p = RiskLevel.LOW_RISK ↔ p ≤ 3/10) ∧
    (risk_level_submission p = RiskLevel.MEDIUM_RISK ↔ 3/10 < p ∧ p ≤ 7/10) ∧
    (risk_level_submission p = RiskLevel.HIGH_RISK ↔ 7/10 < p) := by
  unfold hybrid_risk_level risk_level_submission
  split_ifs with hA hB hC hD <;>
    refine ⟨?_, ?_, ?_, ?_, ?_, ?_⟩ <;>
      simp_all <;> linarith

/-- C8 (witness): the amended characterization at p = 0.2: MEDIUM under
the canonical mapping, LOW under the submission mapping. -/
theorem C8_risk_tier_amended_witness :
    (hybrid_risk_level (1/5) = RiskLevel.MEDIUM_RISK ↔
        (1/10 : ℚ) ≤ 1/5 ∧ (1/5 : ℚ) < 3/10) ∧
    (risk_level_submission (1/5) = RiskLevel.LOW_RISK ↔ (1/5 : ℚ) ≤ 3/10) :=
  ⟨(C8_risk_tier_amended (1/5) (by norm_num) (by norm_num)).2.1,
   (C8_risk_tier_amended (1/5) (by norm_num) (by norm_num)).2.2.2.1⟩

/-- C9 (counterexample): the feature transform is total and never returns
a SchemaError.  For a category outside the closed enum ("crypto") and a
non-positive amount (−5) it still produces a full feature row — all
one-hot columns zero and the amount scaled to (−5 − 70)/200 = −3/8 — so
nothing rejects the transaction before scoring. -/
theorem C9_schema_error_counterexample :
    all_categories.contains "crypto" = false ∧
    ((-5 : ℚ) ≤ 0) ∧
    preprocess_transaction
        { card_number := some 12345678, gender := some "M",
          amount := -5, category := some "crypto" }
        { hour := 15, weekday := 4, month := 10, unix_time := 1759598735 }
        40 (-74) 7 80
      = { cc_num := 12345678, gender := 1, lat := 40, long := -74,
          city_pop := 8419000, unix_time := 1759598735,
          merch_lat := 7, merch_long := 80,
          hour := 15, day_of_week := 4, is_weekend := 0, month := 10,
          cat_entertainment := 0, cat_food_dining := 0,
          cat_gas_transport := 0, cat_grocery_net := 0,
          cat_grocery_pos := 0, cat_health_fitness := 0,
          cat_home := 0, cat_kids_pets := 0,
          cat_misc_net := 0, cat_misc_pos := 0,
          cat_personal_care := 0, cat_shopping_net := 0,
          cat_shopping_pos := 0, cat_travel := 0,
          amt_scaled := -3/8, high_risk_hour := 0 } := by
  refine ⟨by decide, by norm_num, ?_⟩
  norm_num [preprocess_transaction, one_hot, scale_amount,
    get_city_population, abs]
  decide

/-- C9 (amended): the transform totalizes instead of rejecting: for every
input whose category lies outside the closed enum it produces a feature
row whose fourteen one-hot columns are all zero, and every amount —
including amounts ≤ 0 — is scaled by the fixed affine map (amount−70)/200;
no SchemaError path exists, so scoring proceeds on the defaulted vector. -/
theorem C9_schema_error_amended (tx : TxInput) (clk : Clock)
    (user_lat user_lon merch_lat merch_lon : ℚ) (c : String)
    (hc : tx.category = some c) (hmem : c ∉ all_categories) :
    (preprocess_transaction tx clk user_lat user_lon merch_lat
        merch_lon).cat_entertainment = 0 ∧
    (preprocess_transaction tx clk user_lat user_lon merch_lat
        merch_lon).cat_food_dining = 0 ∧
    (preprocess_transaction tx clk user_lat user_lon merch_lat
        merch_lon).cat_gas_transport = 0 ∧
    (preprocess_transaction tx clk user_lat user_lon merch_lat
        merch_lon).cat_grocery_net = 0 ∧
    (preprocess_transaction tx clk user_lat user_lon merch_lat
        merch_lon).cat_grocery_pos = 0 ∧
    (preprocess_transaction tx clk user_lat user_lon merch_lat
        merch_lon).cat_health_fitness = 0 ∧
    (preprocess_transaction tx clk user_lat user_lon merch_lat
        merch_lon).cat_home = 0 ∧
    (preprocess_transaction tx clk user_lat user_lon merch_lat
        merch_lon).cat_kids_pets = 0 ∧
    (preprocess_transaction tx clk user_lat user_lon merch_lat
        merch_lon).cat_misc_net = 0 ∧
    (preprocess_transaction tx clk user_lat user_lon merch_lat
        merch_lon).cat_misc_pos = 0 ∧
    (preprocess_transaction tx clk user_lat user_lon merch_lat
        merch_lon).cat_personal_care = 0 ∧
    (preprocess_transaction tx clk user_lat user_lon merch_lat
        merch_lon).cat_shopping_net = 0 ∧
    (preprocess_transaction tx clk user_lat user_lon merch_lat
        merch_lon).cat_shopping_pos = 0 ∧
    (preprocess_transaction tx clk user_lat user_lon merch_lat
        merch_lon).cat_travel = 0 ∧
    (preprocess_transaction tx clk user_lat user_lon merch_lat
        merch_lon).amt_scaled = (tx.amount - 70) / 200 := by
  have hone : ∀ name, name ∈ all_categories → one_hot tx.category name = 0 := by
    intro name hn
    simp only [one_hot, hc, Option.some.injEq]
    rw [if_neg]
    intro h
    exact hmem (h ▸ hn)
  refine ⟨hone _ ?_, hone _ ?_, hone _ ?_, hone _ ?_, hone _ ?_, hone _ ?_,
    hone _ ?_, hone _ ?_, hone _ ?_, hone _ ?_, hone _ ?_, hone _ ?_,
    hone _ ?_, hone _ ?_, rfl⟩ <;> simp [all_categories]

/-- C9 (witness): the amended totality statement at the counterexample's
input (category "crypto", amount −5). -/
theorem C9_schema_error_amended_witness :
    (preprocess_transaction
        { card_number := some 12345678, gender := some "M",
          amount := -5, category := some "crypto" }
        { hour := 15, weekday := 4, month := 10, unix_time := 1759598735 }
        40 (-74) 7 80).cat_shopping_net = 0 ∧
    (preprocess_transaction
        { card_number := some 12345678, gender := some "M",
          amount := -5, category := some "crypto" }
        { hour := 15, weekday := 4, month := 10, unix_time := 1759598735 }
        40 (-74) 7 80).amt_scaled = ((-5 : ℚ) - 70) / 200 :=
  ⟨(C9_schema_error_amended _ _ 40 (-74) 7 80 "crypto" rfl
      (by decide)).2.2.2.2.2.2.2.2.2.2.2.1,
   (C9_schema_error_amended _ _ 40 (-74) 7 80 "crypto" rfl
      (by decide)).2.2.2.2.2.2.2.2.2.2.2.2.2.2⟩

/-- C10 (confirmed): `update_transaction_status` touches only the pending
and history collections; in each it modifies at most the first record
whose transaction id matches, changing only the status, admin-note and
resolution-time fields of that record; with no match both collections are
written back exactly as read. -/
theorem C10_update_status_frame :
    (∀ (txid s : String) (note : Option String) (t : String) (st : Stores),
       (update_transaction_status txid s note t st).users = st.users ∧
       (update_transaction_status txid s note t st).fraud_alerts
         = st.fraud_alerts) ∧
    (∀ (txid s : String) (note : Option String) (t : String)
       (l : List PendingRec),
       (∀ r ∈ l, r.transaction_id ≠ txid) →
       update_first_pending txid s note t l = l) ∧
    (∀ (txid s : String) (note : Option String) (t : String)
       (pre : List PendingRec) (r : PendingRec) (post : List PendingRec),
       (∀ r' ∈ pre, r'.transaction_id ≠ txid) →
       r.transaction_id = txid →
       update_first_pending txid s note t (pre ++ r :: post)
         = pre ++
             { r with status := s, admin_action := note,
                      resolved_at := some t } :: post) ∧
    (∀ (txid s : String) (note : Option String) (l : List TxRec),
       (∀ r ∈ l, r.transaction_id ≠ some txid) →
       update_first_tx txid s note l = (false, l)) ∧
    (∀ (txid s : String) (note : Option String)
       (pre : List TxRec) (r : TxRec) (post : List TxRec),
       (∀ r' ∈ pre, r'.transaction_id ≠ some txid) →
       r.transaction_id = some txid →
       update_first_tx txid s note (pre ++ r :: post)
         = (true, pre ++ { r with status := s, admin_review := note } :: post)) ∧
    (∀ (txid s : String) (note : Option String)
       (m : List (String × List TxRec)),
       (∀ p ∈ m, ∀ r ∈ p.2, r.transaction_id ≠ some txid) →
       update_first_user_tx txid s note m = m) ∧
    (∀ (txid s : String) (note : Option String)
       (mpre : List (String × List TxRec)) (u : String) (txs : List TxRec)
       (mpost : List (String × List TxRec)),
       (∀ p ∈ mpre, ∀ r ∈ p.2, r.transaction_id ≠ some txid) →
       (update_first_tx txid s note txs).1 = true →
       update_first_user_tx txid s note (mpre ++ (u, txs) :: mpost)
         = mpre ++ (u, (update_first_tx txid s note txs).2) :: mpost) := by
  have hpend_id : ∀ (txid s : String) (note : Option String) (t : String)
      (l : List PendingRec),
      (∀ r ∈ l, r.transaction_id ≠ txid) →
      update_first_pending txid s note t l = l := by
    intro txid s note t l
    induction l with
    | nil => intro _; rfl
    | cons r rs ih =>
        intro h
        rw [update_first_pending, if_neg (h r (List.mem_cons_self r rs)),
          ih fun r' hr' => h r' (List.mem_cons_of_mem r hr')]
  have htx_id : ∀ (txid s : String) (note : Option String) (l : List TxRec),
      (∀ r ∈ l, r.transaction_id ≠ some txid) →
      update_first_tx txid s note l = (false, l) := by
    intro txid s note l
    induction l with
    | nil => intro _; rfl
    | cons r rs ih =>
        intro h
        rw [update_first_tx, if_neg (h r (List.mem_cons_self r rs))]
        simp [ih fun r' hr' => h r' (List.mem_cons_of_mem r hr')]
  refine ⟨fun _ _ _ _ _ => ⟨rfl, rfl⟩, hpend_id, ?_, htx_id, ?_, ?_, ?_⟩
  · intro txid s note t pre r post hpre hr
    induction pre with
    | nil => rw [List.nil_append, List.nil_append, update_first_pending,
        if_pos hr]
    | cons p ps ih =>
        rw [List.cons_append, update_first_pending,
          if_neg (hpre p (List.mem_cons_self p ps)),
          ih fun r' hr' => hpre r' (List.mem_cons_of_mem p hr'),
          List.cons_append]
  · intro txid s note pre r post hpre hr
    induction pre with
    | nil => rw [List.nil_append, List.nil_append, update_first_tx,
        if_pos hr]
    | cons p ps ih =>
        rw [List.cons_append, update_first_tx,
          if_neg (hpre p (List.mem_cons_self p ps))]
        simp only [ih fun r' hr' => hpre r' (List.mem_cons_of_mem p hr'),
          List.cons_append]
  · intro txid s note m
    induction m with
    | nil => intro _; rfl
    | cons p ps ih =>
        intro h
        rw [update_first_user_tx]
        have hfst : update_first_tx txid s note p.2 = (false, p.2) :=
          htx_id txid s note p.2 (h p (List.mem_cons_self p ps))
        simp [hfst, ih fun p' hp' => h p' (List.mem_cons_of_mem p hp')]
  · intro txid s note mpre u txs mpost hpre hfound
    induction mpre with
    | nil =>
        rw [List.nil_append, List.nil_append, update_first_user_tx]
        simp [hfound]
    | cons p ps ih =>
        have hfst : update_first_tx txid s note p.2 = (false, p.2) :=
          htx_id txid s note p.2 (hpre p (List.mem_cons_self p ps))
        rw [List.cons_append, update_first_user_tx]
        simp only [hfst]
        rw [if_neg (by simp)]
        rw [ih fun p' hp' => hpre p' (List.mem_cons_of_mem p hp'),
          List.cons_append]

/-- C10 (witness): the frame theorem applied at a singleton pending list
whose only record matches: the record's status, note and resolution time
are set and nothing else changes. -/
theorem C10_update_status_frame_witness :
    update_first_pending "TX1" "approved" (some "ok") "t9"
        ([] ++
          ({ transaction_id := "TX1", user_id := "alice", amount := 500,
             fraud_probability := 1/2, risk_level := RiskLevel.MEDIUM_RISK,
             timestamp := "t0", status := "pending",
             admin_action := none, resolved_at := none } : PendingRec) :: [])
      = [] ++
          ({ transaction_id := "TX1", user_id := "alice", amount := 500,
             fraud_probability := 1/2, risk_level := RiskLevel.MEDIUM_RISK,
             timestamp := "t0", status := "approved",
             admin_action := some "ok", resolved_at := some "t9" } :
              PendingRec) :: [] :=
  C10_update_status_frame.2.2.1 "TX1" "approved" (some "ok") "t9" []
    _ [] (by simp) rfl
